import Mathlib

/-!
Verification development for the mcp-docker-server repository.

The repository is a protocol adapter exposing Docker engine operations as
callable tools.  Four handler groups (container / image / network / volume)
dispatch a tool-name string plus a loosely-typed argument mapping into engine
client calls and reshape the responses.

The handler module `mcp_docker_server/server.py` is exercised by the test
suite but its source is not part of the checked tree; the handler definitions
below are therefore modelled from the specification (sections 3, 4, 7 and 8),
and are consistent with every assertion of `tests/test_handlers.py`.
The SSH bootstrap functions (`resolve_ssh_config`,
`_ensure_ssh_host_key_trusted`, `create_docker_client`) are embedded directly
from `mcp_docker_server/__init__.py`.

Engine interaction is modelled as a trace of `EngineCall` events; each
handler returns the `Except`-wrapped payload together with the list of engine
calls it issued, in order.
-/

/-- First `n` characters of a string (structural char-list view; same
semantics as Python slicing `s[:n]`). -/
def strTake (s : String) (n : Nat) : String := String.mk (s.data.take n)

/-- String without its first `n` characters (Python `s[n:]`). -/
def strDrop (s : String) (n : Nat) : String := String.mk (s.data.drop n)

/-- Python `s.startswith(p)`. -/
def startsWithStr (s p : String) : Bool := p.data.isPrefixOf s.data

/-- Python `s.lower()` (ASCII case folding, which covers the hostnames the
bootstrap handles). -/
def strToLower (s : String) : String := String.mk (s.data.map Char.toLower)

/-- Python `s.strip()`: whitespace removed from both ends. -/
def strTrim (s : String) : String :=
  String.mk (((s.data.dropWhile Char.isWhitespace).reverse.dropWhile
    Char.isWhitespace).reverse)

/-- Python `int(s)` restricted to non-negative decimal digit strings;
`none` models the `ValueError` on anything else. -/
def strToNatQ (s : String) : Option Nat :=
  if !s.data.isEmpty && s.data.all Char.isDigit then
    some (s.data.foldl (fun n c => n * 10 + (c.toNat - 48)) 0)
  else none

/-- Splitting a character list on a separator character; the result is
always non-empty and keeps empty segments (Python `str.split(sep)`). -/
def splitCharAux (sep : Char) : List Char → List (List Char)
  | [] => [[]]
  | c :: rest =>
    let r := splitCharAux sep rest
    if c = sep then [] :: r
    else
      match r with
      | [] => [[c]]
      | h :: t => (c :: h) :: t

/-- Python `s.split(sep)` for a one-character separator. -/
def splitOnChar (sep : Char) (s : String) : List String :=
  (splitCharAux sep s.data).map String.mk

/-- Occurrence test of one character list inside another. -/
def subOccurs (needle : List Char) : List Char → Bool
  | [] => needle.isEmpty
  | c :: rest => needle.isPrefixOf (c :: rest) || subOccurs needle rest

/-- Python `needle in haystack` substring test. -/
def containsSub (haystack needle : String) : Bool :=
  subOccurs needle.data haystack.data

/-- Loosely-typed argument mapping of a tool call, restricted to the keys the
handlers read.  An absent key is `none`. -/
structure Args where
  container_id : Option String := none
  network_id : Option String := none
  volume_name : Option String := none
  image : Option String := none
  name : Option String := none
  repository : Option String := none
  tag : Option String := none
  path : Option String := none
  driver : Option String := none
  internal : Option Bool := none
  force : Option Bool := none
  all : Option Bool := none
  tail : Option Nat := none
  deriving Repr, DecidableEq

/-- Port entry of a raw container record (shape carried through unchanged). -/
structure PortInfo where
  privatePort : Nat := 0
  publicPort : Option Nat := none
  proto : String := "tcp"
  deriving Repr, DecidableEq

/-- Raw container record as returned by the engine's raw listing endpoint. -/
structure RawContainer where
  Id : String
  Names : List String
  Image : String
  Command : String
  Created : Int
  Status : String
  Ports : List PortInfo
  deriving Repr, DecidableEq

/-- Raw image record as returned by the engine's raw listing endpoint. -/
structure RawImage where
  Id : String
  RepoTags : List String
  Created : Int
  Size : Nat
  VirtualSize : Nat
  Labels : List (String × String)
  deriving Repr, DecidableEq

/-- Raw network record as returned by the engine's raw listing endpoint. -/
structure RawNetwork where
  Id : String
  Name : String
  Driver : String
  Scope : String
  Created : String
  Labels : List (String × String)
  Options : List (String × String)
  IPAM : List (String × String)
  deriving Repr, DecidableEq

/-- Raw volume record (one entry of the `Volumes` wrapper list). -/
structure RawVolume where
  Name : String
  Driver : String
  Mountpoint : String
  CreatedAt : String
  Labels : List (String × String)
  Options : List (String × String)
  Scope : String
  deriving Repr, DecidableEq

/-- Container summary: the reshaped record returned by `list_containers`. -/
structure ContainerSummary where
  id : String
  names : String
  image : String
  command : String
  created : Int
  status : String
  ports : List PortInfo
  deriving Repr, DecidableEq

/-- Image summary: the reshaped record returned by `list_images`. -/
structure ImageSummary where
  id : String
  repo_tags : List String
  created : Int
  size : Nat
  virtual_size : Nat
  labels : List (String × String)
  deriving Repr, DecidableEq

/-- Network summary: the reshaped record returned by `list_networks`. -/
structure NetworkSummary where
  id : String
  name : String
  driver : String
  scope : String
  created : String
  labels : List (String × String)
  options : List (String × String)
  ipam : List (String × String)
  deriving Repr, DecidableEq

/-- Volume summary: the reshaped record returned by `list_volumes`. -/
structure VolumeSummary where
  name : String
  driver : String
  mountpoint : String
  created_at : String
  labels : List (String × String)
  options : List (String × String)
  scope : String
  deriving Repr, DecidableEq

/-- Modelled from the spec: strips one leading slash from a container name
("first name, leading slash stripped"). -/
def stripLeadingSlash (s : String) : String :=
  if startsWithStr s "/" then strDrop s 1 else s

/-- Modelled from the spec: container summary projection — id is the 12-char
id prefix, names is the first raw name with its leading slash stripped, the
remaining fields are carried through. -/
def summarizeContainer (r : RawContainer) : ContainerSummary :=
  { id := strTake r.Id 12
    names := stripLeadingSlash (r.Names.headD "")
    image := r.Image
    command := r.Command
    created := r.Created
    status := r.Status
    ports := r.Ports }

/-- Modelled from the spec: strips a leading digest-algorithm marker
`sha256:` from a raw image id, when present. -/
def stripSha256 (s : String) : String :=
  if startsWithStr s "sha256:" then strDrop s 7 else s

/-- Modelled from the spec: image summary projection — id is the 12-char
prefix of the digest after stripping `sha256:` when present. -/
def summarizeImage (r : RawImage) : ImageSummary :=
  { id := strTake (stripSha256 r.Id) 12
    repo_tags := r.RepoTags
    created := r.Created
    size := r.Size
    virtual_size := r.VirtualSize
    labels := r.Labels }

/-- Modelled from the spec: network summary projection — id truncated to 12
characters, remaining fields carried through. -/
def summarizeNetwork (r : RawNetwork) : NetworkSummary :=
  { id := strTake r.Id 12
    name := r.Name
    driver := r.Driver
    scope := r.Scope
    created := r.Created
    labels := r.Labels
    options := r.Options
    ipam := r.IPAM }

/-- Modelled from the spec: volume summary projection (the raw listing is a
wrapper holding a `Volumes` list; the engine model below already exposes the
unwrapped list). -/
def summarizeVolume (r : RawVolume) : VolumeSummary :=
  { name := r.Name
    driver := r.Driver
    mountpoint := r.Mountpoint
    created_at := r.CreatedAt
    labels := r.Labels
    options := r.Options
    scope := r.Scope }

/-- Engine error, as raised by the docker client (e.g. `NotFound`). -/
inductive DockerErr where
  | notFound (msg : String)
  | apiError (msg : String)
  deriving Repr, DecidableEq

/-- One engine-client call, recorded in the order the handlers issue them. -/
inductive EngineCall where
  | containersList (allFlag : Bool)
  | containersCreate (a : Args)
  | containersRun (a : Args)
  | containersGet (id : String)
  | containerStart (id : String)
  | containerStop (id : String)
  | containerRemove (id : String) (force : Bool)
  | containerLogs (id : String) (tail : Nat)
  | imagesList (allFlag : Bool)
  | imagesPull (repository : String) (tag : Option String)
  | imagesPush (repository : String) (tag : Option String)
  | imagesBuild (a : Args)
  | imagesRemove (image : String) (force : Bool)
  | networksList
  | networksCreate (name : String) (driver : String) (internal : Bool)
  | networksGet (id : String)
  | networkRemove (id : String)
  | volumesList
  | volumesCreate (name : String) (driver : String)
  | volumesGet (name : String)
  | volumeRemove (name : String) (force : Bool)
  deriving Repr, DecidableEq

/-- Engine environment: the data and outcomes the engine client would report.
Raw listing endpoints are infallible data; fetch-by-id and the mutating
container calls may fail with a `DockerErr` (e.g. `NotFound`).  Log payloads
are the decoded text of the log byte stream (the byte/text decode step is
modelled at the text level). -/
structure Engine where
  containersRaw : List RawContainer := []
  imagesRaw : List RawImage := []
  networksRaw : List RawNetwork := []
  volumesRaw : List RawVolume := []
  containersGet : String → Except DockerErr Unit := fun _ => .ok ()
  containerStop : String → Except DockerErr Unit := fun _ => .ok ()
  containerRemove : String → Bool → Except DockerErr Unit := fun _ _ => .ok ()
  containersCreate : Args → Except DockerErr String := fun _ => .ok ""
  containersRun : Args → Except DockerErr String := fun _ => .ok ""
  containerLogs : String → Nat → String := fun _ _ => ""
  imagesPull : String → Option String → String := fun r _ => r
  imagesBuild : Args → String × List String := fun _ => ("", [])
  networksGet : String → Except DockerErr Unit := fun _ => .ok ()
  volumesGet : String → Except DockerErr Unit := fun _ => .ok ()

/-- Result payload of a tool call (the JSON-serializable record or sequence
returned upstream). -/
inductive ToolResult where
  | containers (xs : List ContainerSummary)
  | images (xs : List ImageSummary)
  | networks (xs : List NetworkSummary)
  | volumes (xs : List VolumeSummary)
  | ref (id : String)
  | logs (lines : List String)
  | statusRecord (status : String) (subject : String)
  | pushed (repository : String) (tag : Option String)
  | built (image : String) (logLines : List String)
  deriving Repr, DecidableEq

/-- Outcome of one handler invocation: the `Except`-wrapped optional result
(`none` models Python `None` for an unrecognized tool name) together with the
ordered trace of engine calls issued. -/
abbrev HandlerOutcome := Except DockerErr (Option ToolResult) × List EngineCall

/-- Fixed operation set of the container group. -/
def containerOps : List String :=
  ["list_containers", "create_container", "run_container", "recreate_container",
   "start_container", "stop_container", "remove_container", "fetch_container_logs"]

/-- Fixed operation set of the image group. -/
def imageOps : List String :=
  ["list_images", "pull_image", "push_image", "build_image", "remove_image"]

/-- Fixed operation set of the network group. -/
def networkOps : List String :=
  ["list_networks", "create_network", "remove_network"]

/-- Fixed operation set of the volume group. -/
def volumeOps : List String :=
  ["list_volumes", "create_volume", "remove_volume"]

/-- Modelled from the spec: the container-group handler
`_handle_container_tools` of `mcp_docker_server/server.py` (module absent
from the checked tree).  Dispatches on the tool name; an unrecognized name
yields `none` with no engine call; `NotFound` from fetch-by-id propagates. -/
def handle_container_tools (name : String) (a : Args) (e : Engine) : HandlerOutcome :=
  if name = "list_containers" then
    (.ok (some (.containers (e.containersRaw.map summarizeContainer))),
     [.containersList (a.all.getD false)])
  else if name = "create_container" then
    match e.containersCreate a with
    | .error err => (.error err, [.containersCreate a])
    | .ok cid => (.ok (some (.ref cid)), [.containersCreate a])
  else if name = "run_container" then
    match e.containersRun a with
    | .error err => (.error err, [.containersRun a])
    | .ok cid => (.ok (some (.ref cid)), [.containersRun a])
  else if name = "recreate_container" then
    let cid := a.container_id.getD ""
    match e.containersGet cid with
    | .error err => (.error err, [.containersGet cid])
    | .ok _ =>
      match e.containerStop cid with
      | .error err => (.error err, [.containersGet cid, .containerStop cid])
      | .ok _ =>
        match e.containerRemove cid false with
        | .error err =>
          (.error err, [.containersGet cid, .containerStop cid, .containerRemove cid false])
        | .ok _ =>
          let runArgs := { a with container_id := none }
          match e.containersRun runArgs with
          | .error err =>
            (.error err,
             [.containersGet cid, .containerStop cid, .containerRemove cid false,
              .containersRun runArgs])
          | .ok rid =>
            (.ok (some (.ref rid)),
             [.containersGet cid, .containerStop cid, .containerRemove cid false,
              .containersRun runArgs])
  else if name = "start_container" then
    let cid := a.container_id.getD ""
    match e.containersGet cid with
    | .error err => (.error err, [.containersGet cid])
    | .ok _ => (.ok (some (.statusRecord "started" cid)), [.containersGet cid, .containerStart cid])
  else if name = "stop_container" then
    let cid := a.container_id.getD ""
    match e.containersGet cid with
    | .error err => (.error err, [.containersGet cid])
    | .ok _ =>
      match e.containerStop cid with
      | .error err => (.error err, [.containersGet cid, .containerStop cid])
      | .ok _ => (.ok (some (.statusRecord "stopped" cid)), [.containersGet cid, .containerStop cid])
  else if name = "remove_container" then
    let cid := a.container_id.getD ""
    let force := a.force.getD false
    match e.containersGet cid with
    | .error err => (.error err, [.containersGet cid])
    | .ok _ =>
      match e.containerRemove cid force with
      | .error err => (.error err, [.containersGet cid, .containerRemove cid force])
      | .ok _ =>
        (.ok (some (.statusRecord "removed" cid)), [.containersGet cid, .containerRemove cid force])
  else if name = "fetch_container_logs" then
    let cid := a.container_id.getD ""
    let tail := a.tail.getD 100
    match e.containersGet cid with
    | .error err => (.error err, [.containersGet cid])
    | .ok _ =>
      (.ok (some (.logs (splitOnChar '\n' (e.containerLogs cid tail)))),
       [.containersGet cid, .containerLogs cid tail])
  else
    (.ok none, [])

/-- Modelled from the spec: the image-group handler `_handle_image_tools`. -/
def handle_image_tools (name : String) (a : Args) (e : Engine) : HandlerOutcome :=
  if name = "list_images" then
    (.ok (some (.images (e.imagesRaw.map summarizeImage))),
     [.imagesList (a.all.getD false)])
  else if name = "pull_image" then
    let repo := a.repository.getD ""
    (.ok (some (.ref (e.imagesPull repo a.tag))), [.imagesPull repo a.tag])
  else if name = "push_image" then
    let repo := a.repository.getD ""
    (.ok (some (.pushed repo a.tag)), [.imagesPush repo a.tag])
  else if name = "build_image" then
    let br := e.imagesBuild a
    (.ok (some (.built br.1 br.2)), [.imagesBuild a])
  else if name = "remove_image" then
    let img := a.image.getD ""
    let force := a.force.getD false
    (.ok (some (.statusRecord "removed" img)), [.imagesRemove img force])
  else
    (.ok none, [])

/-- Modelled from the spec: the network-group handler `_handle_network_tools`. -/
def handle_network_tools (name : String) (a : Args) (e : Engine) : HandlerOutcome :=
  if name = "list_networks" then
    (.ok (some (.networks (e.networksRaw.map summarizeNetwork))), [.networksList])
  else if name = "create_network" then
    let n := a.name.getD ""
    let d := a.driver.getD "bridge"
    let int := a.internal.getD false
    (.ok (some (.ref n)), [.networksCreate n d int])
  else if name = "remove_network" then
    let nid := a.network_id.getD ""
    match e.networksGet nid with
    | .error err => (.error err, [.networksGet nid])
    | .ok _ => (.ok (some (.statusRecord "removed" nid)), [.networksGet nid, .networkRemove nid])
  else
    (.ok none, [])

/-- Modelled from the spec: the volume-group handler `_handle_volume_tools`. -/
def handle_volume_tools (name : String) (a : Args) (e : Engine) : HandlerOutcome :=
  if name = "list_volumes" then
    (.ok (some (.volumes (e.volumesRaw.map summarizeVolume))), [.volumesList])
  else if name = "create_volume" then
    let n := a.name.getD ""
    let d := a.driver.getD "local"
    (.ok (some (.ref n)), [.volumesCreate n d])
  else if name = "remove_volume" then
    let vn := a.volume_name.getD ""
    let force := a.force.getD false
    match e.volumesGet vn with
    | .error err => (.error err, [.volumesGet vn])
    | .ok _ =>
      (.ok (some (.statusRecord "removed" vn)), [.volumesGet vn, .volumeRemove vn force])
  else
    (.ok none, [])

/-- Python exception, as can arise inside the SSH bootstrap code paths
(`ValueError` from port parsing or `int()`, or any other failure). -/
inductive PyExn where
  | valueError
  | otherError (msg : String)
  deriving Repr, DecidableEq

/-- Components of `urllib.parse.urlparse` that the bootstrap code reads. -/
structure ParsedUrl where
  scheme : String
  netloc : String
  path : String
  deriving Repr, DecidableEq

/-- Model of `urllib.parse.urlparse` restricted to the shapes the bootstrap
handles: for a string with scheme marker `ssh://` the netloc is the text up
to the next `/`, the path the remainder (query/fragment folded into path,
IPv6 bracket syntax out of scope). -/
def urlparseSsh (s : String) : ParsedUrl :=
  if startsWithStr s "ssh://" then
    let rest := strDrop s 6
    { scheme := "ssh"
      netloc := String.mk (rest.data.takeWhile fun c => c ≠ '/')
      path := String.mk (rest.data.dropWhile fun c => c ≠ '/') }
  else
    { scheme := "", netloc := "", path := s }

/-- Splits the host-port part of a netloc at its first colon, as
`hostpart.partition(':')` does: everything after the first colon is the port
text. -/
def splitHostPort (hostport : String) : String × Option String :=
  match splitOnChar ':' hostport with
  | [] => ("", none)
  | [h] => (h, none)
  | h :: rest => (h, some (String.intercalate ":" rest))

/-- Model of `parsed.hostname`: the part of the netloc after the last `@`
and before the first colon, lowercased; `none` when empty. -/
def hostnameOf (netloc : String) : Option String :=
  let hostport := (splitOnChar '@' netloc).getLastD netloc
  let host := (splitHostPort hostport).1
  if host = "" then none else some (strToLower host)

/-- Model of `parsed.port`: `none` when no (or an empty) port text is
present; a `ValueError` when the port text is non-numeric or exceeds 65535;
the parsed number otherwise. -/
def portOf (netloc : String) : Except PyExn (Option Nat) :=
  let hostport := (splitOnChar '@' netloc).getLastD netloc
  match (splitHostPort hostport).2 with
  | none => .ok none
  | some "" => .ok none
  | some p =>
    match strToNatQ p with
    | some n => if n ≤ 65535 then .ok (some n) else .error .valueError
    | none => .error .valueError

/-- One entry of the user's SSH client configuration, as
`SSHConfig.lookup` reports it: optional hostname / user / port overrides. -/
structure SSHHostEntry where
  hostname : Option String := none
  user : Option String := none
  port : Option String := none

/-- Environment of the bootstrap code: the `DOCKER_HOST` value, whether the
SSH config file exists, the outcome of parsing it (a lookup function on
success, an exception on failure), the outcome of running the host-key scan
subprocess, and the current known-hosts file content. -/
structure KeyscanResult where
  returncode : Int := 0
  stdout : String := ""

structure World where
  dockerHostEnv : String := ""
  sshConfigExists : Bool := false
  sshParse : Except PyExn (String → SSHHostEntry) := .ok (fun _ => {})
  keyscanRun : Nat → String → Except PyExn KeyscanResult := fun _ _ => .ok {}
  knownHosts : String := ""

/-- Model of `urllib.parse.urlunparse` for the reconstructed SSH URL. -/
def urlunparseSsh (scheme netloc path : String) : String :=
  scheme ++ "://" ++ netloc ++ path

/-- Embedding of `resolve_ssh_config` (mcp_docker_server/__init__.py, lines
14-72): returns the input unchanged when it is empty, lacks the `ssh://`
scheme, already carries a user-qualified netloc, has no SSH config file, has
no hostname, or when anything inside the `try` block fails; otherwise
rewrites the netloc from the SSH config lookup (port appended only when it
differs from the string "22"). -/
def resolve_ssh_config (docker_host : String) (w : World) : String :=
  if docker_host = "" ∨ ¬ startsWithStr docker_host "ssh://" then docker_host
  else
    let parsed := urlparseSsh docker_host
    if parsed.netloc.data.contains '@' then docker_host
    else if ¬ w.sshConfigExists then docker_host
    else
      match w.sshParse with
      | .error _ => docker_host
      | .ok lookup =>
        match hostnameOf parsed.netloc with
        | none => docker_host
        | some hostname =>
          let hc := lookup hostname
          let resolvedHostname := hc.hostname.getD hostname
          let netloc0 :=
            match hc.user with
            | some u => u ++ "@" ++ resolvedHostname
            | none => resolvedHostname
          let port := hc.port.getD "22"
          let netloc1 := if port ≠ "22" then netloc0 ++ ":" ++ port else netloc0
          urlunparseSsh parsed.scheme netloc1 parsed.path

/-- Side effects of the host-key bootstrap: invoking the `ssh-keyscan`
subprocess, and appending scanned keys to the known-hosts file. -/
inductive Effect where
  | keyscan (port : Nat) (hostname : String)
  | knownHostsAppend (content : String)
  deriving Repr, DecidableEq

/-- Python `re.match` with pattern `^[a-zA-Z0-9.-]+$`: a character of the
allowed class. -/
def isHostnameChar (c : Char) : Bool :=
  c.isAlpha || c.isDigit || c = '.' || c = '-'

/-- Python `re.match(r"^[a-zA-Z0-9.-]+$", s)` succeeds exactly when `s` is a
non-empty run of allowed characters, optionally followed by one trailing
newline (Python's `$` also matches just before a final newline). -/
def pyHostnameMatch (s : String) : Bool :=
  (!s.data.isEmpty && s.data.all isHostnameChar) ||
    (match s.data.getLast? with
     | some c =>
       c = '\n' && !s.data.dropLast.isEmpty && s.data.dropLast.all isHostnameChar
     | none => false)

/-- SSH-config resolution step of `_ensure_ssh_host_key_trusted` (lines
86-94): when the config file exists, parse it (a parse failure escapes to
the enclosing handler), override hostname from the lookup, and pass the port
override through `int()` (a non-numeric value raises `ValueError`). -/
def resolveHostPort (hostname0 : String) (port0 : Nat) (w : World) :
    Except PyExn (String × Nat) :=
  if w.sshConfigExists then
    match w.sshParse with
    | .error exn => .error exn
    | .ok lookup =>
      let hc := lookup hostname0
      let hostname1 := hc.hostname.getD hostname0
      match hc.port with
      | none => .ok (hostname1, port0)
      | some pstr =>
        match strToNatQ pstr with
        | some n => .ok (hostname1, n)
        | none => .error .valueError
  else .ok (hostname0, port0)

/-- Subprocess step of `_ensure_ssh_host_key_trusted` (lines 107-133): run
`ssh-keyscan`; a timeout or subprocess error is caught and ignored; on exit
code 0 with non-blank output, append the key to known-hosts unless the
`[hostname]:port` line is already present. -/
def keyscanStep (hostname : String) (port : Nat) (w : World) : List Effect :=
  Effect.keyscan port hostname ::
    (match w.keyscanRun port hostname with
     | .error _ => []
     | .ok res =>
       if res.returncode = 0 ∧ strTrim res.stdout ≠ "" then
         if containsSub w.knownHosts ("[" ++ hostname ++ "]:" ++ toString port) then []
         else [Effect.knownHostsAppend res.stdout]
       else [])

/-- Body of `_ensure_ssh_host_key_trusted` up to the outer `try` (lines
77-133): parse the URL (port access may raise `ValueError`), resolve
host/port through the SSH config, validate hostname and port range, and only
then invoke the key scan. -/
def ensureBody (docker_host : String) (w : World) : Except PyExn (List Effect) :=
  match portOf (urlparseSsh docker_host).netloc with
  | .error exn => .error exn
  | .ok portOpt =>
    match hostnameOf (urlparseSsh docker_host).netloc with
    | none => .ok []
    | some hostname0 =>
      match resolveHostPort hostname0 (portOpt.getD 22) w with
      | .error exn => .error exn
      | .ok hp =>
        if pyHostnameMatch hp.1 = false then .ok []
        else if hp.2 < 1 ∨ 65535 < hp.2 then .ok []
        else .ok (keyscanStep hp.1 hp.2 w)

/-- Embedding of `_ensure_ssh_host_key_trusted` (lines 75-138): the outer
`except Exception: pass` swallows every failure of the body, so the function
always returns normally (modelled as the list of side effects performed). -/
def ensure_ssh_host_key_trusted (docker_host : String) (w : World) : List Effect :=
  match ensureBody docker_host w with
  | .ok fx => fx
  | .error _ => []

/-- Result of `create_docker_client` (lines 141-159): the `DOCKER_HOST`
value in effect when `docker.from_env()` is finally called, and the
bootstrap side effects performed on the way. -/
structure ClientSetup where
  envDockerHost : String
  effects : List Effect
  deriving Repr, DecidableEq

/-- Embedding of `create_docker_client`: resolve the SSH alias, write the
resolved value back to the environment, run the host-key bootstrap for
`ssh://` targets (its own failures already swallowed), and construct the
client unconditionally. -/
def create_docker_client (w : World) : ClientSetup :=
  let docker_host := w.dockerHostEnv
  let resolved := resolve_ssh_config docker_host w
  let fx :=
    if resolved ≠ "" ∧ startsWithStr resolved "ssh://" then
      ensure_ssh_host_key_trusted resolved w
    else []
  { envDockerHost := resolved, effects := fx }

/-- Empty argument mapping (no keys supplied). -/
def argsEmpty : Args := {}

/-- Engine fixture on which every call succeeds. -/
def engineW : Engine := {}

/-- Argument fixture for recreate/start/stop/remove/log calls. -/
def argsRecreate : Args := { container_id := some "test_id", image := some "nginx" }

/-- Engine fixture whose fetch-by-id calls all fail with `NotFound`. -/
def engineNF : Engine :=
  { containersGet := fun _ => .error (.notFound "Container not found")
    networksGet := fun _ => .error (.notFound "Network not found")
    volumesGet := fun _ => .error (.notFound "Volume not found") }

/-- Claim C1: for each of the four resource-group handlers, dispatching a
tool name outside that group's fixed operation set returns an absent value
(`none`), raises no error, and issues no engine call. -/
theorem c1_unknown_tool_yields_none (name : String) (a : Args) (e : Engine) :
    (name ∉ containerOps → handle_container_tools name a e = (Except.ok none, []))
    ∧ (name ∉ imageOps → handle_image_tools name a e = (Except.ok none, []))
    ∧ (name ∉ networkOps → handle_network_tools name a e = (Except.ok none, []))
    ∧ (name ∉ volumeOps → handle_volume_tools name a e = (Except.ok none, [])) := by
  refine ⟨fun h => ?_, fun h => ?_, fun h => ?_, fun h => ?_⟩
  · simp [containerOps] at h
    simp [handle_container_tools, h]
  · simp [imageOps] at h
    simp [handle_image_tools, h]
  · simp [networkOps] at h
    simp [handle_network_tools, h]
  · simp [volumeOps] at h
    simp [handle_volume_tools, h]

/-- Witness for C1 at the concrete tool name of the tests. -/
theorem c1_witness :
    handle_container_tools "unknown_tool" argsEmpty engineW = (Except.ok none, [])
    ∧ handle_image_tools "unknown_tool" argsEmpty engineW = (Except.ok none, [])
    ∧ handle_network_tools "unknown_tool" argsEmpty engineW = (Except.ok none, [])
    ∧ handle_volume_tools "unknown_tool" argsEmpty engineW = (Except.ok none, []) := by
  obtain ⟨h1, h2, h3, h4⟩ := c1_unknown_tool_yields_none "unknown_tool" argsEmpty engineW
  exact ⟨h1 (by decide), h2 (by decide), h3 (by decide), h4 (by decide)⟩

/-- Claim C2: `recreate_container` issues exactly get(id), stop, remove, run
(new args) in that order; run comes after the removal; a failing
intermediate step stops the sequence with no compensating call. -/
theorem c2_recreate_sequence (a : Args) (e : Engine) (err : DockerErr) (rid : String) :
    (e.containersGet (a.container_id.getD "") = .error err →
      handle_container_tools "recreate_container" a e =
        (.error err, [.containersGet (a.container_id.getD "")]))
    ∧ (e.containersGet (a.container_id.getD "") = .ok () →
       e.containerStop (a.container_id.getD "") = .error err →
      handle_container_tools "recreate_container" a e =
        (.error err,
         [.containersGet (a.container_id.getD ""),
          .containerStop (a.container_id.getD "")]))
    ∧ (e.containersGet (a.container_id.getD "") = .ok () →
       e.containerStop (a.container_id.getD "") = .ok () →
       e.containerRemove (a.container_id.getD "") false = .error err →
      handle_container_tools "recreate_container" a e =
        (.error err,
         [.containersGet (a.container_id.getD ""),
          .containerStop (a.container_id.getD ""),
          .containerRemove (a.container_id.getD "") false]))
    ∧ (e.containersGet (a.container_id.getD "") = .ok () →
       e.containerStop (a.container_id.getD "") = .ok () →
       e.containerRemove (a.container_id.getD "") false = .ok () →
       e.containersRun { a with container_id := none } = .error err →
      handle_container_tools "recreate_container" a e =
        (.error err,
         [.containersGet (a.container_id.getD ""),
          .containerStop (a.container_id.getD ""),
          .containerRemove (a.container_id.getD "") false,
          .containersRun { a with container_id := none }]))
    ∧ (e.containersGet (a.container_id.getD "") = .ok () →
       e.containerStop (a.container_id.getD "") = .ok () →
       e.containerRemove (a.container_id.getD "") false = .ok () →
       e.containersRun { a with container_id := none } = .ok rid →
      handle_container_tools "recreate_container" a e =
        (.ok (some (.ref rid)),
         [.containersGet (a.container_id.getD ""),
          .containerStop (a.container_id.getD ""),
          .containerRemove (a.container_id.getD "") false,
          .containersRun { a with container_id := none }])) := by
  exact ⟨fun h1 => by simp [handle_container_tools, h1],
         fun h1 h2 => by simp [handle_container_tools, h1, h2],
         fun h1 h2 h3 => by simp [handle_container_tools, h1, h2, h3],
         fun h1 h2 h3 h4 => by simp [handle_container_tools, h1, h2, h3, h4],
         fun h1 h2 h3 h4 => by simp [handle_container_tools, h1, h2, h3, h4]⟩

/-- Witness for C2 on the all-success engine fixture. -/
theorem c2_witness :
    handle_container_tools "recreate_container" argsRecreate engineW =
      (Except.ok (some (.ref "")),
       [.containersGet "test_id", .containerStop "test_id",
        .containerRemove "test_id" false,
        .containersRun { argsRecreate with container_id := none }]) :=
  (c2_recreate_sequence argsRecreate engineW (.notFound "") "").2.2.2.2 rfl rfl rfl rfl

/-- Claim C3: a `NotFound` raised by the engine lookup propagates unchanged
through every fetch-by-id operation of the container, network and volume
handlers. -/
theorem c3_notfound_propagates (a : Args) (e : Engine) (err : DockerErr) :
    (e.containersGet (a.container_id.getD "") = .error err →
      (handle_container_tools "start_container" a e).1 = .error err
      ∧ (handle_container_tools "stop_container" a e).1 = .error err
      ∧ (handle_container_tools "remove_container" a e).1 = .error err
      ∧ (handle_container_tools "fetch_container_logs" a e).1 = .error err
      ∧ (handle_container_tools "recreate_container" a e).1 = .error err)
    ∧ (e.networksGet (a.network_id.getD "") = .error err →
      (handle_network_tools "remove_network" a e).1 = .error err)
    ∧ (e.volumesGet (a.volume_name.getD "") = .error err →
      (handle_volume_tools "remove_volume" a e).1 = .error err) := by
  refine ⟨fun h => ?_, fun h => ?_, fun h => ?_⟩ <;>
    simp [handle_container_tools, handle_network_tools, handle_volume_tools, h]

/-- Witness for C3 on the not-found engine fixture. -/
theorem c3_witness :
    (handle_container_tools "start_container" argsRecreate engineNF).1
      = Except.error (DockerErr.notFound "Container not found") :=
  ((c3_notfound_propagates argsRecreate engineNF
      (.notFound "Container not found")).1 rfl).1

/-- Raw container fixture matching the listing test data. -/
def rawC : RawContainer :=
  { Id := "test_container_id", Names := ["/test_container"], Image := "test:latest",
    Command := "cmd", Created := 1694876781, Status := "Up 2 hours", Ports := [] }

/-- Engine fixture whose log stream decodes to text ending in a newline. -/
def engineLogsA : Engine := { containerLogs := fun _ _ => "a\nb\n" }

/-- Engine fixture whose log stream decodes to text not ending in a newline. -/
def engineLogsB : Engine := { containerLogs := fun _ _ => "a\nb" }

/-- Argument fixture carrying an explicit force flag. -/
def argsForce : Args :=
  { container_id := some "test_id", volume_name := some "test_volume",
    force := some true }

/-- Claim C4: `list_containers` returns the engine-order map of the raw
records, where each summary id is the first 12 characters of the raw `Id`
and names is the first entry of `Names` with a leading slash stripped. -/
theorem c4_list_containers_projection (a : Args) (e : Engine) :
    handle_container_tools "list_containers" a e =
      (Except.ok (some (.containers (e.containersRaw.map summarizeContainer))),
       [.containersList (a.all.getD false)])
    ∧ (∀ r : RawContainer, (summarizeContainer r).id = strTake r.Id 12)
    ∧ (∀ (r : RawContainer) (n : String) (rest : List String),
        r.Names = n :: rest →
          (summarizeContainer r).names =
            (if startsWithStr n "/" then strDrop n 1 else n)) := by
  refine ⟨by simp [handle_container_tools], fun r => rfl, ?_⟩
  intro r n rest h
  simp [summarizeContainer, stripLeadingSlash, h]

/-- Witness for C4 on the listing test record. -/
theorem c4_witness : (summarizeContainer rawC).names = "test_container" := by
  have h := (c4_list_containers_projection argsEmpty engineW).2.2
    rawC "/test_container" [] rfl
  rw [h]; decide

/-- Raw image fixture matching the listing test data. -/
def rawI : RawImage :=
  { Id := "sha256:test_image_id", RepoTags := ["test:latest"],
    Created := 1694876781, Size := 123456789, VirtualSize := 123456789,
    Labels := [] }

/-- Claim C5: `list_images` maps each raw record to a summary whose id is
the first 12 characters of the raw `Id` after stripping a leading `sha256:`
when present. -/
theorem c5_list_images_projection (a : Args) (e : Engine) :
    handle_image_tools "list_images" a e =
      (Except.ok (some (.images (e.imagesRaw.map summarizeImage))),
       [.imagesList (a.all.getD false)])
    ∧ (∀ r : RawImage,
        (summarizeImage r).id =
          strTake (if startsWithStr r.Id "sha256:" then strDrop r.Id 7 else r.Id) 12)
    ∧ (summarizeImage rawI).id = "test_image_i" :=
  ⟨by simp [handle_image_tools], fun r => rfl, by decide⟩

/-- Claim C6: `fetch_container_logs` splits the decoded log text on newlines
in order, keeping a trailing empty line exactly when the stream ends in a
newline: `a\nb\n` yields `["a", "b", ""]` and `a\nb` yields `["a", "b"]`. -/
theorem c6_fetch_logs_line_split (a : Args) (e : Engine)
    (hg : e.containersGet (a.container_id.getD "") = .ok ()) :
    handle_container_tools "fetch_container_logs" a e =
      (Except.ok (some (.logs (splitOnChar '\n'
          (e.containerLogs (a.container_id.getD "") (a.tail.getD 100))))),
       [.containersGet (a.container_id.getD ""),
        .containerLogs (a.container_id.getD "") (a.tail.getD 100)])
    ∧ (handle_container_tools "fetch_container_logs" argsRecreate engineLogsA).1
        = Except.ok (some (.logs ["a", "b", ""]))
    ∧ (handle_container_tools "fetch_container_logs" argsRecreate engineLogsB).1
        = Except.ok (some (.logs ["a", "b"])) :=
  ⟨by simp [handle_container_tools, hg], rfl, rfl⟩

/-- Witness for C6 on the newline-terminated log fixture. -/
theorem c6_witness :
    (handle_container_tools "fetch_container_logs" argsRecreate engineLogsA).1
      = Except.ok (some (.logs ["a", "b", ""])) :=
  (c6_fetch_logs_line_split argsRecreate engineLogsA rfl).2.1

/-- Claim C7: `remove_container` and `remove_volume` forward the caller's
force flag (default `false`) unchanged, in exactly one engine remove call. -/
theorem c7_force_forwarded (a : Args) (e : Engine)
    (hc : e.containersGet (a.container_id.getD "") = .ok ())
    (hv : e.volumesGet (a.volume_name.getD "") = .ok ()) :
    (handle_container_tools "remove_container" a e).2
      = [.containersGet (a.container_id.getD ""),
         .containerRemove (a.container_id.getD "") (a.force.getD false)]
    ∧ (handle_volume_tools "remove_volume" a e).2
      = [.volumesGet (a.volume_name.getD ""),
         .volumeRemove (a.volume_name.getD "") (a.force.getD false)] := by
  constructor
  · cases hrem : e.containerRemove (a.container_id.getD "") (a.force.getD false) <;>
      simp [handle_container_tools, hc, hrem]
  · simp [handle_volume_tools, hv]

/-- Witness for C7 with an explicit `force := true`. -/
theorem c7_witness :
    (handle_container_tools "remove_container" argsForce engineW).2
      = [.containersGet "test_id", .containerRemove "test_id" true]
    ∧ (handle_volume_tools "remove_volume" argsForce engineW).2
      = [.volumesGet "test_volume", .volumeRemove "test_volume" true] :=
  c7_force_forwarded argsForce engineW rfl rfl

/-- World fixture with all defaults (no SSH config file present). -/
def worldDefault : World := {}

/-- World fixture whose SSH config file exists but fails to parse, and whose
`DOCKER_HOST` carries a non-numeric port. -/
def worldParseFail : World :=
  { dockerHostEnv := "ssh://host:x", sshConfigExists := true,
    sshParse := .error .valueError }

/-- World fixture for a reachable scan target (scan exits non-zero, so no
known-hosts write follows). -/
def worldScan : World :=
  { keyscanRun := fun _ _ => .ok { returncode := 1, stdout := "" } }

/-- Membership of a keyscan event in the subprocess step fixes its hostname
and port to the validated ones (the only other possible effect is a
known-hosts append). -/
theorem keyscan_mem_keyscanStep (host : String) (p : Nat) (hostname : String)
    (port : Nat) (w : World)
    (hmem : Effect.keyscan p host ∈ keyscanStep hostname port w) :
    p = port ∧ host = hostname := by
  simp only [keyscanStep, List.mem_cons] at hmem
  rcases hmem with heq | htail
  · simpa using heq
  · exfalso
    rcases hk : w.keyscanRun port hostname with e | res <;> rw [hk] at htail <;>
      simp at htail

/-- The body of the host-key routine either fails, performs nothing, or
performs the subprocess step for a hostname/port pair that passed both the
hostname pattern check and the port range check. -/
theorem ensureBody_cases (u : String) (w : World) :
    (∃ e, ensureBody u w = .error e) ∨ ensureBody u w = .ok [] ∨
    (∃ hostname port, ensureBody u w = .ok (keyscanStep hostname port w)
      ∧ pyHostnameMatch hostname = true ∧ 1 ≤ port ∧ port ≤ 65535) := by
  rcases hport : portOf (urlparseSsh u).netloc with e | portOpt
  · exact .inl ⟨e, by simp [ensureBody, hport]⟩
  rcases hhost : hostnameOf (urlparseSsh u).netloc with _ | h0
  · exact .inr (.inl (by simp [ensureBody, hport, hhost]))
  rcases hr : resolveHostPort h0 (portOpt.getD 22) w with e2 | hp
  · exact .inl ⟨e2, by simp [ensureBody, hport, hhost, hr]⟩
  by_cases hv : pyHostnameMatch hp.1 = false
  · exact .inr (.inl (by simp [ensureBody, hport, hhost, hr, hv]))
  · by_cases hrange : hp.2 < 1 ∨ 65535 < hp.2
    · refine .inr (.inl ?_)
      simp [ensureBody, hport, hhost, hr, hv, hrange]
      intro hne hle
      exact (by omega : False).elim
    · refine .inr (.inr ⟨hp.1, hp.2, ?_, by simpa using hv, ?_, ?_⟩)
      · simp [ensureBody, hport, hhost, hr, hv, hrange]
        intro hcon
        exact (by omega : False).elim
      · omega
      · omega

/-- Claim C9: the host-key-scanning subprocess is invoked only for a
hostname matching `^[a-zA-Z0-9.-]+$` and a port in 1..65535; on any
validation failure the routine returns without scanning. -/
theorem c9_keyscan_only_when_validated (u : String) (w : World)
    (host : String) (p : Nat)
    (hmem : Effect.keyscan p host ∈ ensure_ssh_host_key_trusted u w) :
    pyHostnameMatch host = true ∧ 1 ≤ p ∧ p ≤ 65535 := by
  unfold ensure_ssh_host_key_trusted at hmem
  rcases ensureBody_cases u w with ⟨e, hb⟩ | hb | ⟨hostname, port, hb, hval, hlo, hhi⟩ <;>
    rw [hb] at hmem
  · simp at hmem
  · simp at hmem
  · have hmem' : Effect.keyscan p host ∈ keyscanStep hostname port w := by
      simpa using hmem
    obtain ⟨hp1, hh1⟩ := keyscan_mem_keyscanStep host p hostname port w hmem'
    subst hp1; subst hh1
    exact ⟨hval, hlo, hhi⟩

/-- Witness for C9: a validated host and port reach the scan step. -/
theorem c9_witness :
    Effect.keyscan 2222 "example.com" ∈
        ensure_ssh_host_key_trusted "ssh://example.com:2222" worldScan
    ∧ (pyHostnameMatch "example.com" = true ∧ 1 ≤ 2222 ∧ 2222 ≤ 65535) := by
  have hm : Effect.keyscan 2222 "example.com" ∈
      ensure_ssh_host_key_trusted "ssh://example.com:2222" worldScan := by decide
  exact ⟨hm, c9_keyscan_only_when_validated "ssh://example.com:2222" worldScan
    "example.com" 2222 hm⟩

/-- Claim C8: the startup bootstrap never propagates an exception:
`resolve_ssh_config` yields the original URL whenever the SSH config parse
fails, the host-key routine swallows every failure of its body, and client
construction proceeds with the resolved host regardless. -/
theorem c8_bootstrap_never_raises (u : String) (w : World) (exn : PyExn) :
    (w.sshParse = .error exn → resolve_ssh_config u w = u)
    ∧ (ensureBody u w = .error exn → ensure_ssh_host_key_trusted u w = [])
    ∧ (create_docker_client w).envDockerHost = resolve_ssh_config w.dockerHostEnv w := by
  refine ⟨fun hp => ?_, fun hb => ?_, rfl⟩
  · simp [resolve_ssh_config, hp]
  · simp [ensure_ssh_host_key_trusted, hb]

/-- Witness for C8 on the failing-parse world fixture. -/
theorem c8_witness :
    resolve_ssh_config "ssh://host:x" worldParseFail = "ssh://host:x"
    ∧ ensure_ssh_host_key_trusted "ssh://host:x" worldParseFail = []
    ∧ (create_docker_client worldParseFail).envDockerHost
        = resolve_ssh_config "ssh://host:x" worldParseFail := by
  obtain ⟨p1, p2, p3⟩ :=
    c8_bootstrap_never_raises "ssh://host:x" worldParseFail PyExn.valueError
  exact ⟨p1 rfl, p2 rfl, p3⟩

/-- Claim C10: `resolve_ssh_config` is the identity on inputs that are
empty, lack the `ssh://` scheme, already carry an `@` in the authority, have
no hostname, or when no SSH config file exists. -/
theorem c10_resolve_identity_cases (u : String) (w : World) :
    (u = "" → resolve_ssh_config u w = u)
    ∧ (startsWithStr u "ssh://" = false → resolve_ssh_config u w = u)
    ∧ ((urlparseSsh u).netloc.data.contains '@' = true → resolve_ssh_config u w = u)
    ∧ (hostnameOf (urlparseSsh u).netloc = none → resolve_ssh_config u w = u)
    ∧ (w.sshConfigExists = false → resolve_ssh_config u w = u) := by
  refine ⟨fun h => by subst h; simp [resolve_ssh_config],
          fun h => by simp [resolve_ssh_config, h], fun h => ?_, fun h => ?_,
          fun h => ?_⟩
  · unfold resolve_ssh_config
    split
    · rfl
    · have h' : '@' ∈ (urlparseSsh u).netloc.data := by simpa using h
      simp [h']
  · unfold resolve_ssh_config
    split
    · rfl
    · rcases hp : w.sshParse with e | lookup <;> simp [h, hp]
  · unfold resolve_ssh_config
    split
    · rfl
    · simp [h]

/-- Witness for C10 on three of the identity cases. -/
theorem c10_witness :
    resolve_ssh_config "" worldDefault = ""
    ∧ resolve_ssh_config "tcp://localhost:2375" worldDefault = "tcp://localhost:2375"
    ∧ resolve_ssh_config "ssh://user@host" worldDefault = "ssh://user@host" :=
  ⟨(c10_resolve_identity_cases "" worldDefault).1 rfl,
   (c10_resolve_identity_cases "tcp://localhost:2375" worldDefault).2.1 (by decide),
   (c10_resolve_identity_cases "ssh://user@host" worldDefault).2.2.1 (by decide)⟩
